import Mathlib

/-!
Shallow embedding of the OutlookAgent email core: recipient normalization
(`utils/input_utils.py`), address validation (`utils/validators.py`), payload
construction (`utils/email/email_utils.py`), the send/forward delivery
orchestrators (`services/email/send_email.py`, `services/email/forward_email.py`)
and the fetch query construction (`services/email/fetch_emails.py`).

Python strings are modelled as Lean `String` (with `List Char` for character
level work). The upstream HTTP transport is modelled as an oracle mapping the
index of each outbound call, in program order, to its observable result; the
orchestrators additionally return the trace of (url, JSON body) posts they
performed, so that "no upstream call is made" is the trace being `[]`.
The `\w` character class is modelled on its ASCII fragment (letters, digits,
underscore), which is what all the concrete inputs in this development use.
-/

namespace OutlookAgent

/-! ## Character classes of the validation regex `^[\w\.-]+@[\w\.-]+\.\w{2,}$` -/

/-- The `\w` class (ASCII fragment): letters, digits, underscore. -/
def isWordChar (c : Char) : Bool := c.isAlpha || c.isDigit || c == '_'

/-- The `[\w\.-]` class: word characters, dot, hyphen. -/
def isLocalChar (c : Char) : Bool := isWordChar c || c == '.' || c == '-'

/-- All ways of writing a list as `prefixPart ++ suffixPart`, in order. -/
def splits : List Char → List (List Char × List Char)
  | [] => [([], [])]
  | c :: cs => ([], c :: cs) :: (splits cs).map (fun p => (c :: p.1, p.2))

/-- Language membership for the body `[\w\.-]+@[\w\.-]+\.\w{2,}` of the
validation regex, as an exact whole-list match: the list decomposes as a
nonempty `[\w\.-]+` block, `@`, a nonempty `[\w\.-]+` block, `.`, and a
`\w{2,}` block reaching the end. -/
def coreMatch (l : List Char) : Bool :=
  (splits l).any fun p =>
    !p.1.isEmpty && p.1.all isLocalChar &&
    (match p.2 with
     | [] => false
     | c :: rest =>
       c == '@' && ((splits rest).any fun q =>
         !q.1.isEmpty && q.1.all isLocalChar &&
         (match q.2 with
          | [] => false
          | d :: tld => d == '.' && tld.all isWordChar && decide (2 ≤ tld.length))))

/-- Python `re.match(r"^...$", s)` semantics for the anchored pattern: the `$`
anchor accepts the end of the string, or the position just before a single
trailing newline. -/
def pyMatchDollar (l : List Char) : Bool :=
  coreMatch l ||
    (match l.getLast? with
     | some c => c == '\n' && coreMatch l.dropLast
     | none => false)

/-- `validators.validate_email_format`: `bool(re.match(r"^[\w\.-]+@[\w\.-]+\.\w{2,}$", email))`. -/
def validate_email_format (email : String) : Bool := pyMatchDollar email.data

/-- The format rule as the spec words it: an exact full-string match of the
anchored regex, with no extra characters before or after (used to compare the
implemented validator against the spec's reading). -/
def anchoredFullMatch (email : String) : Bool := coreMatch email.data

/-- Structural description of the regex language: `local@domain.tld` with a
nonempty `[\w\.-]+` local part, a nonempty `[\w\.-]+` domain part, and a
`\w{2,}` top-level-domain part. -/
def EmailShape (l : List Char) : Prop :=
  ∃ a b c, l = a ++ '@' :: (b ++ '.' :: c) ∧
    a ≠ [] ∧ (∀ x ∈ a, isLocalChar x = true) ∧
    b ≠ [] ∧ (∀ x ∈ b, isLocalChar x = true) ∧
    (∀ x ∈ c, isWordChar x = true) ∧ 2 ≤ c.length

/-! ## `input_utils.normalize_email_list` -/

/-- A Python value as accepted by `normalize_email_list`: a string, a list of
strings, or anything else (including `None`). -/
inductive PyVal
  | str (s : String)
  | list (xs : List String)
  | other
deriving DecidableEq

/-- `re.split(r"[;,]", value)`: cut at every comma or semicolon, keeping empty
pieces. -/
def reSplitSep : List Char → List (List Char)
  | [] => [[]]
  | c :: cs =>
    if c == ',' || c == ';' then [] :: reSplitSep cs
    else
      match reSplitSep cs with
      | [] => [[c]]
      | p :: ps => (c :: p) :: ps

/-- Python `str.strip()`: drop leading and trailing whitespace. -/
def pyStrip (l : List Char) : List Char :=
  ((l.dropWhile Char.isWhitespace).reverse.dropWhile Char.isWhitespace).reverse

/-- `input_utils.normalize_email_list`. The string arm is the comprehension
`[email.strip() for email in re.split(r"[;,]", value) if email.strip()]`
(the guard tests the stripped piece for truthiness, i.e. nonemptiness). -/
def normalize_email_list : PyVal → List String
  | .str s =>
    (reSplitSep s.data).filterMap fun email =>
      if (pyStrip email).isEmpty then none else some (String.mk (pyStrip email))
  | .list xs => xs
  | .other => []

/-- The normalizer as the spec words it: split on commas and semicolons, strip
each piece, drop pieces that become empty, preserve order; a list is returned
unchanged; any other input yields the empty list. -/
def normalizeSpecModel : PyVal → List String
  | .str s =>
    ((((reSplitSep s.data).map pyStrip).filter fun t => !t.isEmpty).map String.mk)
  | .list xs => xs
  | .other => []

/-! ## `email_utils` payload builders -/

/-- JSON values as built by the payload constructors (only the shapes the code
produces: strings, arrays, and objects with insertion-ordered fields). -/
inductive Json
  | str (s : String)
  | arr (xs : List Json)
  | obj (fields : List (String × Json))

/-- Whether an object value carries a top-level field with the given key. -/
def Json.hasKey : Json → String → Bool
  | .obj fields, k => fields.any fun f => f.1 == k
  | _, _ => false

/-- First value bound to a key in an object value, if any. -/
def Json.get? : Json → String → Option Json
  | .obj fields, k => (fields.find? fun f => f.1 == k).map (·.2)
  | _, _ => none

/-- `email_utils.build_recipients`. -/
def build_recipients (addresses : List String) : List Json :=
  addresses.map fun email => .obj [("emailAddress", .obj [("address", .str email)])]

/-- `email_utils.build_email_payload`. -/
def build_email_payload («to» : List String) (subject body content_type : String)
    (cc bcc : List String) : Json :=
  .obj [("message", .obj [
      ("subject", .str subject),
      ("body", .obj [("contentType", .str content_type), ("content", .str body)]),
      ("toRecipients", .arr (build_recipients «to»)),
      ("ccRecipients", .arr (build_recipients cc)),
      ("bccRecipients", .arr (build_recipients bcc))]),
    ("saveToSentItems", .str "true")]

/-- `email_utils.build_forward_payload`: `comment` and `toRecipients` always,
`ccRecipients` / `bccRecipients` only when the corresponding list is truthy
(nonempty). -/
def build_forward_payload («to» cc bcc : List String) (additional_message : String) : Json :=
  let base := [("comment", Json.str additional_message),
               ("toRecipients", Json.arr (build_recipients «to»))]
  let withCc := if cc.isEmpty then base
    else base ++ [("ccRecipients", Json.arr (build_recipients cc))]
  let withBcc := if bcc.isEmpty then withCc
    else withCc ++ [("bccRecipients", Json.arr (build_recipients bcc))]
  .obj withBcc

/-! ## Delivery orchestrators (`send_email.py`, `forward_email.py`)

Each `client.post(...)` / `raise_for_status()` pair is modelled by consulting an
oracle at the index of the call (in program order). The oracle reports what the
Python code can observe: a 2xx response, an `httpx.HTTPStatusError` carrying the
response's status code and body text together with the exception's rendered
string `str(e)`, or any other exception with its rendered string. -/

/-- Observable result of one upstream POST followed by `raise_for_status()`. -/
inductive UpstreamResponse
  | ok
  | httpError (code : Nat) (bodyText : String) (excStr : String)
  | otherError (excStr : String)
deriving DecidableEq

/-- One entry of the `results` list: the four dict shapes the two services
append. -/
inductive DeliveryOutcome
  | individual (recipient : String) (status : String)
  | individualError (recipient : String) (message : String)
  | group (recipients : List String) (status : String)
  | groupError (message : String)
deriving DecidableEq

/-- The `recipient` field of an outcome dict, when present. -/
def DeliveryOutcome.recipientField : DeliveryOutcome → Option String
  | .individual r _ => some r
  | .individualError r _ => some r
  | .group _ _ => none
  | .groupError _ => none

/-- Top-level return value of the send / forward services. -/
inductive OpResult
  | error (message : String)
  | complete (results : List DeliveryOutcome)
deriving DecidableEq

/-- `config.settings.GRAPH_API_URL` (its default value). -/
def GRAPH_API_URL : String := "https://graph.microsoft.com/v1.0"

/-- The sendMail endpoint used by `send_outlook_email`. -/
def sendMailUrl : String := GRAPH_API_URL ++ "/me/sendMail"

/-- The forward endpoint used by `forward_outlook_email`. -/
def forwardUrl (email_id : String) : String :=
  GRAPH_API_URL ++ "/me/messages/" ++ email_id ++ "/forward"

/-- The `for recipient in recipients:` loop of `send_outlook_email` in
individual mode, threading the index of the next upstream call; returns the
outcomes appended and the (url, payload) posts made, in order. The
`except Exception as e:` arm records `str(e)` for any exception, including an
`HTTPStatusError` raised by `raise_for_status()`. -/
def sendIndividualLoop (subject body content_type : String) (cc bcc : List String)
    (oracle : Nat → UpstreamResponse) :
    List String → Nat → List DeliveryOutcome × List (String × Json)
  | [], _ => ([], [])
  | recipient :: rest, i =>
    let payload := build_email_payload [recipient] subject body content_type cc bcc
    let outcome : DeliveryOutcome :=
      match oracle i with
      | .ok => .individual recipient "sent"
      | .httpError _ _ excStr => .individualError recipient excStr
      | .otherError excStr => .individualError recipient excStr
    let restRes := sendIndividualLoop subject body content_type cc bcc oracle rest (i + 1)
    (outcome :: restRes.1, (sendMailUrl, payload) :: restRes.2)

/-- `send_email.send_outlook_email`. -/
def send_outlook_email (recipients : List String) (subject body : String)
    (content_type : String) (send_individual : Bool) (cc bcc : List String)
    (oracle : Nat → UpstreamResponse) : OpResult × List (String × Json) :=
  let all_addresses := recipients ++ cc ++ bcc
  let invalid := all_addresses.filter fun email => !validate_email_format email
  if !invalid.isEmpty then
    (.error ("Invalid email address(es): " ++ String.intercalate ", " invalid), [])
  else if send_individual then
    let res := sendIndividualLoop subject body content_type cc bcc oracle recipients 0
    (.complete res.1, res.2)
  else
    let payload := build_email_payload recipients subject body content_type cc bcc
    let outcome : DeliveryOutcome :=
      match oracle 0 with
      | .ok => .group recipients "sent"
      | .httpError _ _ excStr => .groupError excStr
      | .otherError excStr => .groupError excStr
    (.complete [outcome], [(sendMailUrl, payload)])

/-- The `for recipient in to_recipients:` loop of `forward_outlook_email` in
individual mode. Its `except httpx.HTTPStatusError` arm formats
`"HTTP Error {status_code}: {text}"`; its generic arm formats
`"Error forwarding email: {str(e)}"`. -/
def forwardIndividualLoop (email_id : String) (cc bcc : List String)
    (additional_message : String) (oracle : Nat → UpstreamResponse) :
    List String → Nat → List DeliveryOutcome × List (String × Json)
  | [], _ => ([], [])
  | recipient :: rest, i =>
    let forward_data := build_forward_payload [recipient] cc bcc additional_message
    let outcome : DeliveryOutcome :=
      match oracle i with
      | .ok => .individual recipient "forwarded"
      | .httpError code bodyText _ =>
        .individualError recipient ("HTTP Error " ++ toString code ++ ": " ++ bodyText)
      | .otherError excStr =>
        .individualError recipient ("Error forwarding email: " ++ excStr)
    let restRes := forwardIndividualLoop email_id cc bcc additional_message oracle rest (i + 1)
    (outcome :: restRes.1, (forwardUrl email_id, forward_data) :: restRes.2)

/-- `forward_email.forward_outlook_email`. The `content_type` parameter is
accepted but never used by the source. -/
def forward_outlook_email (email_id : String) (to_recipients cc_recipients bcc_recipients : List String)
    (additional_message : String) (content_type : String) (send_individual : Bool)
    (oracle : Nat → UpstreamResponse) : OpResult × List (String × Json) :=
  let all_addresses := to_recipients ++ cc_recipients ++ bcc_recipients
  let invalid := all_addresses.filter fun email => !validate_email_format email
  if !invalid.isEmpty then
    (.error ("Invalid email address(es): " ++ String.intercalate ", " invalid), [])
  else if to_recipients.isEmpty then
    (.error "At least one TO recipient is required", [])
  else if send_individual then
    let res := forwardIndividualLoop email_id cc_recipients bcc_recipients
      additional_message oracle to_recipients 0
    (.complete res.1, res.2)
  else
    let forward_data := build_forward_payload to_recipients cc_recipients bcc_recipients
      additional_message
    let outcome : DeliveryOutcome :=
      match oracle 0 with
      | .ok => .group to_recipients "forwarded"
      | .httpError code bodyText _ =>
        .groupError ("HTTP Error " ++ toString code ++ ": " ++ bodyText)
      | .otherError excStr =>
        .groupError ("Error forwarding email: " ++ excStr)
    (.complete [outcome], [(forwardUrl email_id, forward_data)])

/-! ## Fetch query construction (`fetch_emails.py`, list branch) -/

/-- Python truthiness of an optional string (`if sender:`, `if subject:`):
present and nonempty. -/
def pyTruthyStr : Option String → Bool
  | none => false
  | some s => !s.isEmpty

/-- The query parameters sent on the list request. -/
structure QueryParams where
  top : Nat
  filter : Option String
deriving DecidableEq

/-- The query-construction slice of `fetch_outlook_emails` (no `email_id`):
`query_params = {"$top": top}` is built first; the later `top = 50` in the
subject branch rebinds the local variable only, mirroring the source, and the
dict is never updated with it. -/
def fetchListQueryParams (top : Nat) (is_read : Option Bool) (sender : Option String)
    (subject : Option String) : QueryParams :=
  let query_params : QueryParams := { top := top, filter := none }
  let filters : List String := []
  let filters := match is_read with
    | some b => filters ++ ["isRead eq " ++ (if b then "true" else "false")]
    | none => filters
  let filters := if pyTruthyStr sender then
      filters ++ ["from/emailAddress/address eq " ++ "'" ++ sender.getD "" ++ "'"]
    else filters
  let top := if pyTruthyStr subject then 50 else top
  let query_params := if !filters.isEmpty then
      { query_params with filter := some (String.intercalate " and " filters) }
    else query_params
  query_params

/-! ## Per-call outcome shapes (used to state the fan-out characterizations) -/

/-- The outcome `send_outlook_email` appends for one individual-mode call. -/
def sendOutcome (recipient : String) : UpstreamResponse → DeliveryOutcome
  | .ok => .individual recipient "sent"
  | .httpError _ _ excStr => .individualError recipient excStr
  | .otherError excStr => .individualError recipient excStr

/-- The outcome `forward_outlook_email` appends for one individual-mode call. -/
def forwardOutcome (recipient : String) : UpstreamResponse → DeliveryOutcome
  | .ok => .individual recipient "forwarded"
  | .httpError code bodyText _ =>
    .individualError recipient ("HTTP Error " ++ toString code ++ ": " ++ bodyText)
  | .otherError excStr =>
    .individualError recipient ("Error forwarding email: " ++ excStr)

/-- The single outcome `send_outlook_email` appends in group mode. -/
def sendGroupOutcome (recipients : List String) : UpstreamResponse → DeliveryOutcome
  | .ok => .group recipients "sent"
  | .httpError _ _ excStr => .groupError excStr
  | .otherError excStr => .groupError excStr

/-- The single outcome `forward_outlook_email` appends in group mode. -/
def forwardGroupOutcome (to_recipients : List String) : UpstreamResponse → DeliveryOutcome
  | .ok => .group to_recipients "forwarded"
  | .httpError code bodyText _ =>
    .groupError ("HTTP Error " ++ toString code ++ ": " ++ bodyText)
  | .otherError excStr =>
    .groupError ("Error forwarding email: " ++ excStr)

/-! ## Substring search (used to state "the message embeds …") -/

/-- Whether the first list is a prefix of the second. -/
def listPrefixOf : List Char → List Char → Bool
  | [], _ => true
  | _ :: _, [] => false
  | a :: as, b :: bs => a == b && listPrefixOf as bs

/-- Whether `small` occurs contiguously inside `big`. -/
def strContainsB (big small : String) : Bool :=
  (splits big.data).any fun p => listPrefixOf small.data p.2

/-! ## Helper lemmas -/

theorem mem_splits {s : List Char} : ∀ {a b : List Char}, (a, b) ∈ splits s ↔ s = a ++ b := by
  induction s with
  | nil =>
    intro a b
    simp only [splits, List.mem_singleton, Prod.mk.injEq]
    constructor
    · rintro ⟨rfl, rfl⟩; rfl
    · intro h
      rcases List.append_eq_nil.mp h.symm with ⟨rfl, rfl⟩
      exact ⟨rfl, rfl⟩
  | cons c cs ih =>
    intro a b
    simp only [splits, List.mem_cons, List.mem_map, Prod.mk.injEq]
    constructor
    · rintro (⟨rfl, rfl⟩ | ⟨p, hp, rfl, rfl⟩)
      · rfl
      · have := ih.mp hp
        simp [this]
    · intro h
      cases a with
      | nil => exact Or.inl ⟨rfl, by simpa using h.symm⟩
      | cons a0 as =>
        rcases List.cons.injEq .. ▸ h with ⟨rfl, htail⟩
        exact Or.inr ⟨(as, b), ih.mpr htail, rfl, rfl⟩

theorem listPrefixOf_append (l t : List Char) : listPrefixOf l (l ++ t) = true := by
  induction l with
  | nil => rfl
  | cons a as ih => simp [listPrefixOf, ih]

theorem strContainsB_of_decomp {big small : String} {pre suf : List Char}
    (h : big.data = pre ++ small.data ++ suf) : strContainsB big small = true := by
  unfold strContainsB
  rw [List.any_eq_true]
  refine ⟨(pre, small.data ++ suf), mem_splits.mpr ?_, listPrefixOf_append _ _⟩
  rw [h, List.append_assoc]

theorem coreMatch_iff (l : List Char) : coreMatch l = true ↔ EmailShape l := by
  unfold coreMatch EmailShape
  rw [List.any_eq_true]
  constructor
  · rintro ⟨⟨a, rest⟩, hmem, hf⟩
    rw [mem_splits] at hmem
    dsimp only at hf
    cases rest with
    | nil => simp at hf
    | cons c rest2 =>
      simp only [Bool.and_eq_true, beq_iff_eq, Bool.not_eq_true', List.all_eq_true] at hf
      obtain ⟨⟨hane, hal⟩, rfl, hrest⟩ := hf
      rw [List.any_eq_true] at hrest
      obtain ⟨q, hq, hg⟩ := hrest
      obtain ⟨b, q2⟩ := q
      rw [mem_splits] at hq
      dsimp only at hg
      cases q2 with
      | nil => simp at hg
      | cons d tld =>
        simp only [Bool.and_eq_true, beq_iff_eq, Bool.not_eq_true', List.all_eq_true,
          decide_eq_true_eq] at hg
        obtain ⟨⟨hbne, hbl⟩, ⟨rfl, hcl⟩, hclen⟩ := hg
        refine ⟨a, b, tld, ?_, ?_, hal, ?_, hbl, hcl, hclen⟩
        · rw [hmem, hq]
        · intro hnil; rw [hnil] at hane; simp at hane
        · intro hnil; rw [hnil] at hbne; simp at hbne
  · rintro ⟨a, b, c, rfl, ha, hal, hb, hbl, hcl, hclen⟩
    have hae : a.isEmpty = false := by
      cases a with
      | nil => exact absurd rfl ha
      | cons _ _ => rfl
    have hbe : b.isEmpty = false := by
      cases b with
      | nil => exact absurd rfl hb
      | cons _ _ => rfl
    refine ⟨(a, '@' :: (b ++ '.' :: c)), mem_splits.mpr rfl, ?_⟩
    dsimp only
    simp only [hae, hbe, Bool.not_false, Bool.true_and, List.all_eq_true, beq_self_eq_true,
      List.any_eq_true, Bool.and_eq_true, decide_eq_true_eq]
    refine ⟨hal, (b, '.' :: c), mem_splits.mpr rfl, ?_⟩
    dsimp only
    simp only [hbe, Bool.not_false, Bool.true_and, List.all_eq_true, beq_self_eq_true,
      Bool.and_eq_true, decide_eq_true_eq]
    exact ⟨⟨trivial, hbl⟩, hcl, hclen⟩

theorem pyMatchDollar_iff (l : List Char) :
    pyMatchDollar l = true ↔ EmailShape l ∨ ∃ t, l = t ++ ['\n'] ∧ EmailShape t := by
  rcases List.eq_nil_or_concat l with rfl | ⟨t, a, rfl⟩
  · rw [show pyMatchDollar [] = coreMatch [] by rfl, coreMatch_iff]
    constructor
    · exact Or.inl
    · rintro (h | ⟨t, ht, _⟩)
      · exact h
      · exact absurd ht.symm (by simp)
  · rw [List.concat_eq_append]
    unfold pyMatchDollar
    rw [List.getLast?_concat, List.dropLast_concat]
    simp only [Bool.or_eq_true, Bool.and_eq_true, beq_iff_eq, coreMatch_iff]
    constructor
    · rintro (h | ⟨rfl, h⟩)
      · exact Or.inl h
      · exact Or.inr ⟨t, rfl, h⟩
    · rintro (h | ⟨t', ht', h⟩)
      · exact Or.inl h
      · obtain ⟨rfl, htl⟩ := List.append_inj' ht' rfl
        have : a = '\n' := by simpa using htl
        exact Or.inr ⟨this, h⟩

theorem filterMap_strip_eq (L : List (List Char)) :
    (L.filterMap fun email =>
        if (pyStrip email).isEmpty then none else some (String.mk (pyStrip email))) =
      (((L.map pyStrip).filter fun t => !t.isEmpty).map String.mk) := by
  induction L with
  | nil => rfl
  | cons e L ih =>
    cases h : (pyStrip e).isEmpty <;>
      simp_all [List.filterMap_cons, List.filter_cons]

theorem invalid_nil_of_valid {addrs : List String}
    (h : ∀ e ∈ addrs, validate_email_format e = true) :
    (List.filter (fun email => !validate_email_format email) addrs) = [] := by
  rw [List.filter_eq_nil_iff]
  intro a ha
  simp [h a ha]

theorem sendIndividualLoop_eq (subject body content_type : String) (cc bcc : List String)
    (oracle : Nat → UpstreamResponse) :
    ∀ (recipients : List String) (i : Nat),
      sendIndividualLoop subject body content_type cc bcc oracle recipients i =
        (recipients.mapIdx fun j r => sendOutcome r (oracle (i + j)),
         recipients.map fun r =>
           (sendMailUrl, build_email_payload [r] subject body content_type cc bcc)) := by
  intro recipients
  induction recipients with
  | nil => intro i; rfl
  | cons r rest ih =>
    intro i
    simp only [sendIndividualLoop, ih (i + 1), List.mapIdx_cons, List.map_cons, Nat.add_zero]
    have hfun : (fun j (a : String) => sendOutcome a (oracle (i + 1 + j))) =
        fun j a => sendOutcome a (oracle (i + (j + 1))) := by
      funext j a
      have harg : i + 1 + j = i + (j + 1) := by omega
      rw [harg]
    rw [hfun]
    cases ho : oracle i <;> rfl

theorem forwardIndividualLoop_eq (email_id : String) (cc bcc : List String)
    (additional_message : String) (oracle : Nat → UpstreamResponse) :
    ∀ (to_recipients : List String) (i : Nat),
      forwardIndividualLoop email_id cc bcc additional_message oracle to_recipients i =
        (to_recipients.mapIdx fun j r => forwardOutcome r (oracle (i + j)),
         to_recipients.map fun r =>
           (forwardUrl email_id, build_forward_payload [r] cc bcc additional_message)) := by
  intro to_recipients
  induction to_recipients with
  | nil => intro i; rfl
  | cons r rest ih =>
    intro i
    simp only [forwardIndividualLoop, ih (i + 1), List.mapIdx_cons, List.map_cons, Nat.add_zero]
    have hfun : (fun j (a : String) => forwardOutcome a (oracle (i + 1 + j))) =
        fun j a => forwardOutcome a (oracle (i + (j + 1))) := by
      funext j a
      have harg : i + 1 + j = i + (j + 1) := by omega
      rw [harg]
    rw [hfun]
    cases ho : oracle i <;> rfl

theorem send_outlook_email_individual (recipients : List String)
    (subject body content_type : String) (cc bcc : List String)
    (oracle : Nat → UpstreamResponse)
    (hvalid : ∀ e ∈ recipients ++ cc ++ bcc, validate_email_format e = true) :
    send_outlook_email recipients subject body content_type true cc bcc oracle =
      (.complete (recipients.mapIdx fun i r => sendOutcome r (oracle i)),
       recipients.map fun r =>
         (sendMailUrl, build_email_payload [r] subject body content_type cc bcc)) := by
  unfold send_outlook_email
  simp only []
  rw [invalid_nil_of_valid hvalid, sendIndividualLoop_eq]
  simp [Nat.zero_add]

theorem forward_outlook_email_individual (email_id : String) (to_recipients cc bcc : List String)
    (additional_message content_type : String) (oracle : Nat → UpstreamResponse)
    (hvalid : ∀ e ∈ to_recipients ++ cc ++ bcc, validate_email_format e = true)
    (hne : to_recipients ≠ []) :
    forward_outlook_email email_id to_recipients cc bcc additional_message content_type true oracle =
      (.complete (to_recipients.mapIdx fun i r => forwardOutcome r (oracle i)),
       to_recipients.map fun r =>
         (forwardUrl email_id, build_forward_payload [r] cc bcc additional_message)) := by
  unfold forward_outlook_email
  simp only []
  have hemp : to_recipients.isEmpty = false := by
    cases to_recipients with
    | nil => exact absurd rfl hne
    | cons _ _ => rfl
  rw [invalid_nil_of_valid hvalid, hemp, forwardIndividualLoop_eq]
  simp [Nat.zero_add]

theorem send_outlook_email_group (recipients : List String)
    (subject body content_type : String) (cc bcc : List String)
    (oracle : Nat → UpstreamResponse)
    (hvalid : ∀ e ∈ recipients ++ cc ++ bcc, validate_email_format e = true) :
    send_outlook_email recipients subject body content_type false cc bcc oracle =
      (.complete [sendGroupOutcome recipients (oracle 0)],
       [(sendMailUrl, build_email_payload recipients subject body content_type cc bcc)]) := by
  unfold send_outlook_email
  simp only []
  rw [invalid_nil_of_valid hvalid]
  cases ho : oracle 0 <;> simp [sendGroupOutcome]

theorem forward_outlook_email_group (email_id : String) (to_recipients cc bcc : List String)
    (additional_message content_type : String) (oracle : Nat → UpstreamResponse)
    (hvalid : ∀ e ∈ to_recipients ++ cc ++ bcc, validate_email_format e = true)
    (hne : to_recipients ≠ []) :
    forward_outlook_email email_id to_recipients cc bcc additional_message content_type false oracle =
      (.complete [forwardGroupOutcome to_recipients (oracle 0)],
       [(forwardUrl email_id, build_forward_payload to_recipients cc bcc additional_message)]) := by
  unfold forward_outlook_email
  simp only []
  have hemp : to_recipients.isEmpty = false := by
    cases to_recipients with
    | nil => exact absurd rfl hne
    | cons _ _ => rfl
  rw [invalid_nil_of_valid hvalid, hemp]
  cases ho : oracle 0 <;> simp [forwardGroupOutcome]

/-! ## Claim theorems -/

/-- Claim C5 (counterexample): the address `a@bc.de` followed by a trailing
newline is accepted by the validator, while an exact full-string anchored
match of the regex rejects it — Python's `$` accepts the position before a
final newline, so the claimed equivalence fails. -/
theorem validator_trailing_newline_counterexample :
    validate_email_format "a@bc.de\n" = true ∧ anchoredFullMatch "a@bc.de\n" = false := by
  constructor <;> decide

/-- Claim C5 (amended): the validator accepts a string iff the whole string
matches `^[\w\.-]+@[\w\.-]+\.\w{2,}$` exactly, or the string is such a match
followed by one trailing newline (the `$` anchor's Python semantics). -/
theorem validate_email_format_characterization (email : String) :
    validate_email_format email = true ↔
      EmailShape email.data ∨ ∃ t, email.data = t ++ ['\n'] ∧ EmailShape t :=
  pyMatchDollar_iff email.data

/-- Claim C6: the address normalizer agrees with the reference definition on
every input — a string is split on commas and semicolons with each piece
stripped and empty pieces dropped in order, a list is returned unchanged, any
other value yields the empty list; being a total function it never raises. -/
theorem normalize_email_list_matches_reference (v : PyVal) :
    normalize_email_list v = normalizeSpecModel v := by
  cases v with
  | str s =>
    simpa [normalize_email_list, normalizeSpecModel] using filterMap_strip_eq (reSplitSep s.data)
  | list xs => rfl
  | other => rfl

/-- Claim C7: for every combination of empty and non-empty cc/bcc, the forward
payload carries the `ccRecipients` / `bccRecipients` keys exactly when the
corresponding list is nonempty, while the new-message payload's `message`
object always carries all three recipient keys, with `build_recipients []`
being the empty list. -/
theorem payload_cc_bcc_key_asymmetry («to» cc bcc : List String)
    (subject body content_type additional_message : String) :
    (build_forward_payload «to» cc bcc additional_message).hasKey "ccRecipients" = !cc.isEmpty ∧
    (build_forward_payload «to» cc bcc additional_message).hasKey "bccRecipients" = !bcc.isEmpty ∧
    (∃ m, (build_email_payload «to» subject body content_type cc bcc).get? "message" = some m ∧
      m.hasKey "toRecipients" = true ∧
      m.get? "ccRecipients" = some (.arr (build_recipients cc)) ∧
      m.get? "bccRecipients" = some (.arr (build_recipients bcc))) ∧
    build_recipients [] = [] := by
  refine ⟨?_, ?_, ⟨_, rfl, rfl, rfl, rfl⟩, rfl⟩
  · cases cc <;> cases bcc <;> rfl
  · cases cc <;> cases bcc <;> rfl

/-- Claim C9 (code bug): with a subject filter and the default page size, the
`$top` parameter actually sent upstream is still 10, not 50 — the dict
`query_params` is built from `top` before the `top = 50` reassignment, which
therefore never reaches it. -/
theorem fetch_subject_top_param_bug :
    fetchListQueryParams 10 none none (some "meeting") = { top := 10, filter := none } := by
  decide

/-- Claim C4: forwarding with an empty TO list always returns a top-level
error result and posts nothing upstream, whatever the other arguments and the
transport would have answered. -/
theorem forward_empty_to_rejected (email_id : String) (cc bcc : List String)
    (additional_message content_type : String) (send_individual : Bool)
    (oracle : Nat → UpstreamResponse) :
    ∃ msg, forward_outlook_email email_id [] cc bcc additional_message content_type
        send_individual oracle = (.error msg, []) := by
  unfold forward_outlook_email
  simp only []
  cases h : (List.filter (fun email => !validate_email_format email) ([] ++ cc ++ bcc)).isEmpty with
  | true => exact ⟨_, rfl⟩
  | false => exact ⟨_, rfl⟩

/-- Claim C1 (amended): in Individual mode with every address valid (and, for
forward, a nonempty TO list), the result has status `complete` with exactly one
outcome per TO recipient in TO order — the i-th outcome depends only on the
i-th upstream call and names the i-th recipient as a success or error record,
and one upstream post is made per recipient regardless of other calls'
failures. -/
theorem individual_mode_one_outcome_per_recipient :
    (∀ (recipients : List String) (subject body content_type : String) (cc bcc : List String)
        (oracle : Nat → UpstreamResponse),
      (∀ e ∈ recipients ++ cc ++ bcc, validate_email_format e = true) →
      send_outlook_email recipients subject body content_type true cc bcc oracle =
        (.complete (recipients.mapIdx fun i r => sendOutcome r (oracle i)),
         recipients.map fun r =>
           (sendMailUrl, build_email_payload [r] subject body content_type cc bcc))) ∧
    (∀ (email_id : String) (to_recipients cc bcc : List String)
        (additional_message content_type : String) (oracle : Nat → UpstreamResponse),
      (∀ e ∈ to_recipients ++ cc ++ bcc, validate_email_format e = true) →
      to_recipients ≠ [] →
      forward_outlook_email email_id to_recipients cc bcc additional_message content_type
          true oracle =
        (.complete (to_recipients.mapIdx fun i r => forwardOutcome r (oracle i)),
         to_recipients.map fun r =>
           (forwardUrl email_id, build_forward_payload [r] cc bcc additional_message))) ∧
    (∀ (r : String) (resp : UpstreamResponse),
      (sendOutcome r resp).recipientField = some r ∧
      (forwardOutcome r resp).recipientField = some r ∧
      (sendOutcome r resp = .individual r "sent" ∨
        ∃ m, sendOutcome r resp = .individualError r m) ∧
      (forwardOutcome r resp = .individual r "forwarded" ∨
        ∃ m, forwardOutcome r resp = .individualError r m)) := by
  refine ⟨send_outlook_email_individual, forward_outlook_email_individual, ?_⟩
  intro r resp
  cases resp with
  | ok => exact ⟨rfl, rfl, Or.inl rfl, Or.inl rfl⟩
  | httpError code bodyText excStr => exact ⟨rfl, rfl, Or.inr ⟨_, rfl⟩, Or.inr ⟨_, rfl⟩⟩
  | otherError excStr => exact ⟨rfl, rfl, Or.inr ⟨_, rfl⟩, Or.inr ⟨_, rfl⟩⟩

/-- Claim C1 (counterexample): an individual-mode forward invocation whose
(zero) addresses all pass validation but whose TO list is empty returns a
top-level error, not a `complete` result with one outcome per recipient. -/
theorem individual_forward_empty_to_counterexample :
    forward_outlook_email "id1" [] [] [] "" "Text" true (fun _ => .ok) =
      (.error "At least one TO recipient is required", []) := rfl

theorem individual_mode_one_outcome_per_recipient_witness :
    (∀ e ∈ (["a@x.com", "b@x.com"] : List String) ++ [] ++ [],
      validate_email_format e = true) ∧
    ((["c@x.com"] : List String) ≠ []) ∧
    send_outlook_email ["a@x.com", "b@x.com"] "s" "b" "Text" true [] [] (fun _ => .ok) =
      (.complete ((["a@x.com", "b@x.com"] : List String).mapIdx fun i r =>
          sendOutcome r ((fun _ => UpstreamResponse.ok) i)),
       (["a@x.com", "b@x.com"] : List String).map fun r =>
         (sendMailUrl, build_email_payload [r] "s" "b" "Text" [] [])) ∧
    forward_outlook_email "idw1" ["c@x.com"] [] [] "" "Text" true (fun _ => .ok) =
      (.complete ((["c@x.com"] : List String).mapIdx fun i r =>
          forwardOutcome r ((fun _ => UpstreamResponse.ok) i)),
       (["c@x.com"] : List String).map fun r =>
         (forwardUrl "idw1", build_forward_payload [r] [] [] "")) :=
  ⟨by decide, by decide,
   individual_mode_one_outcome_per_recipient.1 _ _ _ _ _ _ _ (by decide),
   individual_mode_one_outcome_per_recipient.2.1 _ _ _ _ _ _ _ (by decide) (by decide)⟩

/-- Claim C2: if any address across TO+CC+BCC fails the format rule, send and
forward return a top-level error whose message lists exactly the offending
addresses, and make no upstream post. -/
theorem invalid_address_atomic_rejection :
    (∀ (recipients : List String) (subject body content_type : String) (send_individual : Bool)
        (cc bcc : List String) (oracle : Nat → UpstreamResponse),
      (recipients ++ cc ++ bcc).filter (fun email => !validate_email_format email) ≠ [] →
      send_outlook_email recipients subject body content_type send_individual cc bcc oracle =
        (.error ("Invalid email address(es): " ++ String.intercalate ", "
          ((recipients ++ cc ++ bcc).filter fun email => !validate_email_format email)), [])) ∧
    (∀ (email_id : String) (to_recipients cc bcc : List String)
        (additional_message content_type : String) (send_individual : Bool)
        (oracle : Nat → UpstreamResponse),
      (to_recipients ++ cc ++ bcc).filter (fun email => !validate_email_format email) ≠ [] →
      forward_outlook_email email_id to_recipients cc bcc additional_message content_type
          send_individual oracle =
        (.error ("Invalid email address(es): " ++ String.intercalate ", "
          ((to_recipients ++ cc ++ bcc).filter fun email => !validate_email_format email)), [])) := by
  constructor
  · intro recipients subject body content_type send_individual cc bcc oracle h
    unfold send_outlook_email
    simp only []
    cases hfil : List.filter (fun email => !validate_email_format email)
        (recipients ++ cc ++ bcc) with
    | nil => exact absurd hfil h
    | cons a as => rfl
  · intro email_id to_recipients cc bcc additional_message content_type send_individual oracle h
    unfold forward_outlook_email
    simp only []
    cases hfil : List.filter (fun email => !validate_email_format email)
        (to_recipients ++ cc ++ bcc) with
    | nil => exact absurd hfil h
    | cons a as => rfl

theorem invalid_address_atomic_rejection_witness :
    ((["bad"] : List String) ++ [] ++ []).filter
        (fun email => !validate_email_format email) ≠ [] ∧
    send_outlook_email ["bad"] "s" "b" "Text" false [] [] (fun _ => .ok) =
      (.error ("Invalid email address(es): " ++ String.intercalate ", "
        (((["bad"] : List String) ++ [] ++ []).filter
          fun email => !validate_email_format email)), []) ∧
    forward_outlook_email "idw2" ["bad"] [] [] "" "Text" false (fun _ => .ok) =
      (.error ("Invalid email address(es): " ++ String.intercalate ", "
        (((["bad"] : List String) ++ [] ++ []).filter
          fun email => !validate_email_format email)), []) :=
  ⟨by decide,
   invalid_address_atomic_rejection.1 _ _ _ _ _ _ _ _ (by decide),
   invalid_address_atomic_rejection.2 _ _ _ _ _ _ _ _ (by decide)⟩

/-- Claim C3 (amended): in Group mode with every address valid (and, for
forward, a nonempty TO list), exactly one upstream post is made and the result
is `complete` with exactly one outcome, whatever the number of TO recipients:
a group record carrying the full TO list and status sent/forwarded on upstream
success, and a single error record with no recipient field on failure. -/
theorem group_mode_single_outcome :
    (∀ (recipients : List String) (subject body content_type : String) (cc bcc : List String)
        (oracle : Nat → UpstreamResponse),
      (∀ e ∈ recipients ++ cc ++ bcc, validate_email_format e = true) →
      send_outlook_email recipients subject body content_type false cc bcc oracle =
        (.complete [sendGroupOutcome recipients (oracle 0)],
         [(sendMailUrl, build_email_payload recipients subject body content_type cc bcc)])) ∧
    (∀ (email_id : String) (to_recipients cc bcc : List String)
        (additional_message content_type : String) (oracle : Nat → UpstreamResponse),
      (∀ e ∈ to_recipients ++ cc ++ bcc, validate_email_format e = true) →
      to_recipients ≠ [] →
      forward_outlook_email email_id to_recipients cc bcc additional_message content_type
          false oracle =
        (.complete [forwardGroupOutcome to_recipients (oracle 0)],
         [(forwardUrl email_id, build_forward_payload to_recipients cc bcc additional_message)])) ∧
    (∀ (rs : List String) (resp : UpstreamResponse),
      (resp = .ok → sendGroupOutcome rs resp = .group rs "sent" ∧
        forwardGroupOutcome rs resp = .group rs "forwarded") ∧
      (resp ≠ .ok → (∃ m, sendGroupOutcome rs resp = .groupError m) ∧
        (∃ m, forwardGroupOutcome rs resp = .groupError m) ∧
        (sendGroupOutcome rs resp).recipientField = none ∧
        (forwardGroupOutcome rs resp).recipientField = none)) := by
  refine ⟨send_outlook_email_group, forward_outlook_email_group, ?_⟩
  intro rs resp
  cases resp with
  | ok => exact ⟨fun _ => ⟨rfl, rfl⟩, fun h => absurd rfl h⟩
  | httpError code bodyText excStr =>
    constructor
    · intro h; exact absurd h (by simp)
    · intro h; exact ⟨⟨_, rfl⟩, ⟨_, rfl⟩, rfl, rfl⟩
  | otherError excStr =>
    constructor
    · intro h; exact absurd h (by simp)
    · intro h; exact ⟨⟨_, rfl⟩, ⟨_, rfl⟩, rfl, rfl⟩

/-- Claim C3 (counterexample): a group-mode forward invocation whose (zero)
addresses all pass validation but whose TO list is empty returns a top-level
error and zero outcomes, not exactly one outcome. -/
theorem group_forward_empty_to_counterexample :
    forward_outlook_email "id2" [] [] [] "" "Text" false (fun _ => .ok) =
      (.error "At least one TO recipient is required", []) := rfl

theorem group_mode_single_outcome_witness :
    (∀ e ∈ (["a@x.com", "b@x.com"] : List String) ++ [] ++ [],
      validate_email_format e = true) ∧
    ((["c@x.com"] : List String) ≠ []) ∧
    send_outlook_email ["a@x.com", "b@x.com"] "s" "b" "Text" false [] [] (fun _ => .ok) =
      (.complete [sendGroupOutcome ["a@x.com", "b@x.com"] ((fun _ => UpstreamResponse.ok) 0)],
       [(sendMailUrl, build_email_payload ["a@x.com", "b@x.com"] "s" "b" "Text" [] [])]) ∧
    forward_outlook_email "idw3" ["c@x.com"] [] [] "" "Text" false (fun _ => .ok) =
      (.complete [forwardGroupOutcome ["c@x.com"] ((fun _ => UpstreamResponse.ok) 0)],
       [(forwardUrl "idw3", build_forward_payload ["c@x.com"] [] [] "")]) :=
  ⟨by decide, by decide,
   group_mode_single_outcome.1 _ _ _ _ _ _ _ (by decide),
   group_mode_single_outcome.2.1 _ _ _ _ _ _ _ (by decide) (by decide)⟩

/-- Claim C10: an individual-mode send with an empty TO list and valid cc/bcc
addresses makes no upstream post and returns `complete` with an empty results
list. -/
theorem empty_to_individual_send_vacuous
    (subject body content_type : String) (cc bcc : List String)
    (oracle : Nat → UpstreamResponse)
    (h : ∀ e ∈ cc ++ bcc, validate_email_format e = true) :
    send_outlook_email [] subject body content_type true cc bcc oracle =
      (.complete [], []) :=
  send_outlook_email_individual [] subject body content_type cc bcc oracle h

theorem empty_to_individual_send_vacuous_witness :
    (∀ e ∈ (["c@x.com"] : List String) ++ ["d@y.org"], validate_email_format e = true) ∧
    send_outlook_email [] "s" "b" "Text" true ["c@x.com"] ["d@y.org"] (fun _ => .ok) =
      (.complete [], []) :=
  ⟨by decide, empty_to_individual_send_vacuous _ _ _ _ _ _ (by decide)⟩

/-- Claim C8 (amended): when an upstream call answers with a non-2xx status,
forward's error outcome message is `"HTTP Error {code}: {body}"` — embedding
both the status code and the raw body text — in Group and Individual mode
alike; send's error outcome message, in both modes, is exactly the raised
exception's rendered string, which the code does not augment with the status
code or body text. -/
theorem http_error_message_contents :
    (∀ (email_id : String) (to_recipients cc bcc : List String)
        (additional_message content_type : String) (oracle : Nat → UpstreamResponse)
        (code : Nat) (bodyText excStr : String),
      (∀ e ∈ to_recipients ++ cc ++ bcc, validate_email_format e = true) →
      to_recipients ≠ [] →
      oracle 0 = .httpError code bodyText excStr →
      forward_outlook_email email_id to_recipients cc bcc additional_message content_type
          false oracle =
        (.complete [.groupError ("HTTP Error " ++ toString code ++ ": " ++ bodyText)],
         [(forwardUrl email_id, build_forward_payload to_recipients cc bcc additional_message)]) ∧
      strContainsB ("HTTP Error " ++ toString code ++ ": " ++ bodyText) (toString code) = true ∧
      strContainsB ("HTTP Error " ++ toString code ++ ": " ++ bodyText) bodyText = true) ∧
    (∀ (email_id : String) (to_recipients cc bcc : List String)
        (additional_message content_type : String) (oracle : Nat → UpstreamResponse)
        (i code : Nat) (bodyText excStr : String),
      (∀ e ∈ to_recipients ++ cc ++ bcc, validate_email_format e = true) →
      to_recipients ≠ [] →
      oracle i = .httpError code bodyText excStr →
      ∃ outs,
        forward_outlook_email email_id to_recipients cc bcc additional_message content_type
            true oracle =
          (.complete outs,
           to_recipients.map fun r =>
             (forwardUrl email_id, build_forward_payload [r] cc bcc additional_message)) ∧
        ∀ r, to_recipients[i]? = some r →
          outs[i]? = some (.individualError r
            ("HTTP Error " ++ toString code ++ ": " ++ bodyText))) ∧
    (∀ (recipients : List String) (subject body content_type : String) (cc bcc : List String)
        (oracle : Nat → UpstreamResponse) (code : Nat) (bodyText excStr : String),
      (∀ e ∈ recipients ++ cc ++ bcc, validate_email_format e = true) →
      oracle 0 = .httpError code bodyText excStr →
      send_outlook_email recipients subject body content_type false cc bcc oracle =
        (.complete [.groupError excStr],
         [(sendMailUrl, build_email_payload recipients subject body content_type cc bcc)])) ∧
    (∀ (recipients : List String) (subject body content_type : String) (cc bcc : List String)
        (oracle : Nat → UpstreamResponse) (i code : Nat) (bodyText excStr : String),
      (∀ e ∈ recipients ++ cc ++ bcc, validate_email_format e = true) →
      oracle i = .httpError code bodyText excStr →
      ∃ outs,
        send_outlook_email recipients subject body content_type true cc bcc oracle =
          (.complete outs,
           recipients.map fun r =>
             (sendMailUrl, build_email_payload [r] subject body content_type cc bcc)) ∧
        ∀ r, recipients[i]? = some r → outs[i]? = some (.individualError r excStr)) := by
  refine ⟨?_, ?_, ?_, ?_⟩
  · intro email_id to_recipients cc bcc additional_message content_type oracle
      code bodyText excStr hvalid hne ho
    refine ⟨?_, ?_, ?_⟩
    · rw [forward_outlook_email_group email_id to_recipients cc bcc additional_message
        content_type oracle hvalid hne, ho]
      rfl
    · exact @strContainsB_of_decomp _ _ ("HTTP Error ".data) ((": " ++ bodyText).data)
        (by simp [String.data_append])
    · exact @strContainsB_of_decomp _ _ (("HTTP Error " ++ toString code ++ ": ").data) []
        (by simp [String.data_append])
  · intro email_id to_recipients cc bcc additional_message content_type oracle
      i code bodyText excStr hvalid hne ho
    refine ⟨_, forward_outlook_email_individual email_id to_recipients cc bcc
      additional_message content_type oracle hvalid hne, ?_⟩
    intro r hr
    simp [List.getElem?_mapIdx, hr, ho, forwardOutcome]
  · intro recipients subject body content_type cc bcc oracle code bodyText excStr hvalid ho
    rw [send_outlook_email_group recipients subject body content_type cc bcc oracle hvalid, ho]
    rfl
  · intro recipients subject body content_type cc bcc oracle i code bodyText excStr hvalid ho
    refine ⟨_, send_outlook_email_individual recipients subject body content_type cc bcc
      oracle hvalid, ?_⟩
    intro r hr
    simp [List.getElem?_mapIdx, hr, ho, sendOutcome]

/-- Claim C8 (counterexample): a group-mode send whose upstream call fails with
status 500 and body `"boom body"` reports as its error message the exception's
rendered string alone, which does not contain the response body text. -/
theorem send_http_error_body_not_embedded :
    send_outlook_email ["a@x.com"] "s" "b" "Text" false [] []
        (fun _ => .httpError 500 "boom body" "request failed") =
      (.complete [.groupError "request failed"],
       [(sendMailUrl, build_email_payload ["a@x.com"] "s" "b" "Text" [] [])]) ∧
    strContainsB "request failed" "boom body" = false :=
  ⟨rfl, by decide⟩

theorem http_error_message_contents_witness :
    (∀ e ∈ (["a@x.com"] : List String) ++ [] ++ [], validate_email_format e = true) ∧
    ((["a@x.com"] : List String) ≠ []) ∧
    ((fun _ : Nat => UpstreamResponse.httpError 404 "nf" "exc") 0 =
      UpstreamResponse.httpError 404 "nf" "exc") ∧
    (forward_outlook_email "idw8" ["a@x.com"] [] [] "" "Text" false
        (fun _ => .httpError 404 "nf" "exc") =
      (.complete [.groupError ("HTTP Error " ++ toString 404 ++ ": " ++ "nf")],
       [(forwardUrl "idw8", build_forward_payload ["a@x.com"] [] [] "")]) ∧
      strContainsB ("HTTP Error " ++ toString 404 ++ ": " ++ "nf") (toString 404) = true ∧
      strContainsB ("HTTP Error " ++ toString 404 ++ ": " ++ "nf") "nf" = true) ∧
    send_outlook_email ["a@x.com"] "s" "b" "Text" false [] []
        (fun _ => .httpError 404 "nf" "exc") =
      (.complete [.groupError "exc"],
       [(sendMailUrl, build_email_payload ["a@x.com"] "s" "b" "Text" [] [])]) :=
  ⟨by decide, by decide, rfl,
   http_error_message_contents.1 _ _ _ _ _ _ _ _ _ _ (by decide) (by decide) rfl,
   http_error_message_contents.2.2.1 _ _ _ _ _ _ _ _ _ _ (by decide) rfl⟩

end OutlookAgent
